import Mathlib

/-!
Shallow embedding of `src/python/lsst/dax/imgserv/crawler.py` (class `Crawler`):
a single-threaded crawler that queries a remote dataset catalog for unscanned
datasets, stats and checksums each file, and writes results back in two phases
(catalog patch with the scan result, metadata-store insert, catalog patch with
the returned fileId).

External collaborators (the datacat `Client`, `MetadataFitsDb`, `os.stat`, the
`cksum` subprocess, `datetime.utcnow`, `lsst.log`) are modelled by an
environment `Env` of outcome functions; the control flow of `Crawler.run`,
`Crawler.get_cksum`, `Crawler.get_metadata`, `Crawler._run`, `Crawler.__init__`
and `Crawler.start` is translated statement by statement.  Execution is
recorded as a trace of observable events (external calls, log lines, process
exit), together with an outcome (normal return, process exit, or an uncaught
Python exception propagating out of `run`).
-/

/-- Module-level constant `WATCH_FOLDER = '/LSST'` in crawler.py. -/
def WATCH_FOLDER : String := "/LSST"

/-- Module-level constant `WATCH_SITE = 'SLAC'` in crawler.py. -/
def WATCH_SITE : String := "SLAC"

/-- The query string literal passed to `client.search` in `Crawler.run`. -/
def SCAN_QUERY : String := "scanStatus = \x27UNSCANNED\x27"

/-- A catalog `Location`: a (site, resource) pair on a dataset record. -/
structure Location where
  site : String
  resource : String
  deriving DecidableEq, Inhabited

/-- A catalog `Dataset` record as consumed by `Crawler.run` (`dataset.path`,
`dataset.versionId`, `dataset.locations`). -/
structure Dataset where
  path : String
  versionId : Nat
  locations : List Location
  deriving DecidableEq, Inhabited

/-- The attributes of a `DcException` that `Crawler.run` inspects with
`hasattr`: `message`, `type`, `cause` (each possibly absent) and `content`. -/
structure DcErrorInfo where
  message : Option String
  type : Option String
  cause : Option String
  content : String
  deriving DecidableEq, Inhabited

/-- The Python exceptions that can arise in `Crawler.run`'s dataset loop:
a `DcException` from the catalog client / metadata store, the
`AttributeError` raised by `check_location.resource` when `check_location`
is `None`, and the `OSError` raised by `os.stat` on a missing or unreadable
file. -/
inductive PyError where
  | dcErr (info : DcErrorInfo)
  | attrErr
  | osErr (path : String)
  deriving DecidableEq

/-- The fields of `datetime.utcnow()` used by
`strftime('%Y-%m-%dT%H:%M:%SZ')`.  As produced by `datetime`, the fields are
always within calendar ranges (year four digits, month/day/hour/minute/second
two digits). -/
structure UTCTime where
  year : Nat
  month : Nat
  day : Nat
  hour : Nat
  minute : Nat
  second : Nat
  deriving DecidableEq, Inhabited

/-- Zero-padded decimal digit character: `Char.ofNat (48 + n % 10)`. -/
def digitChar (n : Nat) : Char := Char.ofNat (48 + n % 10)

/-- Two-digit zero-padded rendering (strftime `%m`, `%d`, `%H`, `%M`, `%S`
on in-range values). -/
def pad2 (n : Nat) : List Char := [digitChar (n / 10), digitChar n]

/-- Four-digit zero-padded rendering (strftime `%Y` on in-range values). -/
def pad4 (n : Nat) : List Char :=
  [digitChar (n / 1000), digitChar (n / 100), digitChar (n / 10), digitChar n]

/-- Embedding of `datetime.utcnow().strftime('%Y-%m-%dT%H:%M:%SZ')`. -/
def formatUtc (t : UTCTime) : String :=
  String.mk (pad4 t.year ++ '-' :: pad2 t.month ++ '-' :: pad2 t.day ++
    'T' :: pad2 t.hour ++ ':' :: pad2 t.minute ++ ':' :: pad2 t.second ++ ['Z'])

/-- Checks that a character list has exactly the shape
`YYYY-MM-DDTHH:MM:SSZ` (digits in the letter positions, literal separators,
explicit Z suffix). -/
def timestampShape : List Char → Bool
  | [y1, y2, y3, y4, a1, m1, m2, a2, d1, d2, a3,
     h1, h2, a4, n1, n2, a5, s1, s2, a6] =>
    y1.isDigit && y2.isDigit && y3.isDigit && y4.isDigit &&
    m1.isDigit && m2.isDigit && d1.isDigit && d2.isDigit &&
    h1.isDigit && h2.isDigit && n1.isDigit && n2.isDigit &&
    s1.isDigit && s2.isDigit &&
    (a1 == '-') && (a2 == '-') && (a3 == 'T') &&
    (a4 == ':') && (a5 == ':') && (a6 == 'Z')
  | _ => false

/-- The `scan_result` dict built in `Crawler.run` (keys `size`, `checksum`,
`locationScanned`, `scanStatus`, and conditionally `versionMetadata`). -/
structure ScanResult where
  size : Nat
  checksum : String
  locationScanned : String
  scanStatus : String
  versionMetadata : Option (List (String × String))
  deriving DecidableEq

/-- The two bodies `Crawler.run` passes to `client.patch_dataset`: the
`scan_result` dict (phase 1) and the `md_patch` dict
`\x7b"versionMetadata": \x7b"fileId": fileId\x7d\x7d` (phase 2). -/
inductive PatchBody where
  | scanResult (r : ScanResult)
  | fileIdPatch (fileId : Nat)
  deriving DecidableEq

/-- Observable events of one execution of the crawler: external calls made,
log lines emitted (format string plus rendered arguments) and process exit. -/
inductive Event where
  | searchCall (folder version site query : String) (maxNum : Nat)
  | statCall (path : String)
  | cksumCall (path : String)
  | patchCall (path : String) (body : PatchBody) (versionId : Nat)
      (site : Option String)
  | insertFileCall (path : String)
  | logDebug (fmt : String) (args : List String)
  | logInfo (fmt : String) (args : List String)
  | logWarn (fmt : String) (args : List String)
  | exitCall (code : Nat)
  deriving DecidableEq

/-- A trace of events, in execution order. -/
abbrev Trace := List Event

/-- How one call to `Crawler.run` ends: fell off the end normally,
terminated the process via `sys.exit`, or let a Python exception escape. -/
inductive RunOutcome where
  | normal
  | exited (code : Nat)
  | raised (e : PyError)
  deriving DecidableEq

/-- Environment: the behaviour of the external collaborators during one
cycle.  `searchResult` is the combined outcome of `client.search` plus
`unpack(resp.content)` (a page of datasets, or the `DcException` the search
raised); `statSize` is `os.stat(path).st_size` (`none` models `OSError`);
`cksumOutput`/`cksumExit` are the stdout and exit code of the `cksum`
subprocess; `patch1Result`, `insertFileResult`, `patch2Result` are the
outcomes, keyed by dataset path resp. file path, of the phase-1 patch, the
`metaDb.insertFile` call, and the phase-2 patch; `now` is
`datetime.utcnow()`. -/
structure Env where
  searchResult : Except DcErrorInfo (List Dataset)
  statSize : String → Option Nat
  cksumOutput : String → String
  cksumExit : String → Int
  patch1Result : String → Except PyError Unit
  insertFileResult : String → Except PyError Nat
  patch2Result : String → Except PyError Unit
  now : UTCTime

/-- Python's `str.split(" ")` with an explicit single-space separator, over
a character list: consecutive separators yield empty fields, and the result
is never the empty list (`"".split(" ") == [""]`). -/
def pySplitSpace : List Char → List (List Char)
  | [] => [[]]
  | c :: rest =>
    if c == ' ' then [] :: pySplitSpace rest
    else
      match pySplitSpace rest with
      | t :: ts => (c :: t) :: ts
      | [] => [[c]]

/-- Embedding of `Crawler.get_cksum`: spawn `cksum path`, wait for the exit
code, and — ignoring that exit code (`if ec != 0: pass`) — split stdout on a
space and return the first token (`cksum_out[0]`, always present since
`split` never returns an empty list).  The function has no failure path:
the `cksum` binary itself always starts, so `Popen` does not raise, and a
non-zero exit is silently discarded. -/
def get_cksum (env : Env) (path : String) : String :=
  let _ec := env.cksumExit path
  let cksum_out := pySplitSpace (env.cksumOutput path).data
  String.mk (cksum_out.headD [])

/-- Embedding of `Crawler.get_metadata`: `return None`, always. -/
def get_metadata (_path : String) : Option (List (String × String)) := none

/-- Python truthiness of the value returned by `get_metadata` (`if md:`):
`None` and an empty dict are falsy. -/
def pyTruthy (md : Option (List (String × String))) : Bool :=
  match md with
  | none => false
  | some l => !l.isEmpty

/-- The `scan_result` construction in `Crawler.run`: size from `os.stat`,
`str(cksum)`, `locationScanned` from `utcnow().strftime`, `scanStatus = OK`,
and `versionMetadata` only if `get_metadata` returned a truthy value. -/
def buildScanResult (env : Env) (file_path : String) (size : Nat)
    (cksum : String) : ScanResult :=
  let base : ScanResult :=
    { size := size, checksum := cksum,
      locationScanned := formatUtc env.now, scanStatus := "OK",
      versionMetadata := none }
  let md := get_metadata file_path
  if pyTruthy md then { base with versionMetadata := md } else base

/-- The `except DcException as err:` clause of the dataset loop: a
`DcException` is caught and logged with the single generic warning
`"Encountered error while updating dataset %s"`; any other exception
propagates. -/
def exceptClause (file_path : String) (e : PyError) : Trace × Option PyError :=
  match e with
  | .dcErr info =>
    ([Event.logWarn "Encountered error while updating dataset %s"
        [file_path, info.content]], none)
  | e => ([], some e)

/-- The `try:` block of the dataset loop: debug log, phase-1 patch with the
scan result (scoped to `site=WATCH_SITE`), debug log, `metaDb.insertFile`,
phase-2 patch with `versionMetadata.fileId` (no site argument), info log.
The first failing call jumps to `exceptClause`. -/
def tryBlock (env : Env) (dataset_path file_path : String) (versionId : Nat)
    (scan_result : ScanResult) : Trace × Option PyError :=
  let ev0 : Trace :=
    [Event.logDebug "patch_resp %s" [file_path],
     Event.patchCall dataset_path (.scanResult scan_result) versionId
       (some WATCH_SITE)]
  match env.patch1Result dataset_path with
  | .error e =>
    (ev0 ++ (exceptClause file_path e).1, (exceptClause file_path e).2)
  | .ok _ =>
    let ev1 : Trace := ev0 ++
      [Event.logDebug "Inserting %s" [file_path],
       Event.insertFileCall file_path]
    match env.insertFileResult file_path with
    | .error e =>
      (ev1 ++ (exceptClause file_path e).1, (exceptClause file_path e).2)
    | .ok fileId =>
      let ev2 : Trace := ev1 ++
        [Event.patchCall dataset_path (.fileIdPatch fileId) versionId none]
      match env.patch2Result dataset_path with
      | .error e =>
        (ev2 ++ (exceptClause file_path e).1, (exceptClause file_path e).2)
      | .ok _ =>
        (ev2 ++ [Event.logInfo "Inserted %d %s" [toString fileId, file_path]],
         none)

/-- The body of `for dataset in results:` in `Crawler.run` for one dataset:
find the first location whose site is `WATCH_SITE` (the `for`/`break` scan
leaves `check_location = None` when there is none, and the subsequent
`check_location.resource` raises `AttributeError`); `os.stat` the file
(raising `OSError` on failure); compute the checksum; build the scan result;
then run the try block. -/
def processDataset (env : Env) (dataset : Dataset) : Trace × Option PyError :=
  match dataset.locations.find? (fun l => l.site == WATCH_SITE) with
  | none => ([], some .attrErr)
  | some check_location =>
    let file_path := check_location.resource
    match env.statSize file_path with
    | none => ([Event.statCall file_path], some (.osErr file_path))
    | some size =>
      let cksum := get_cksum env file_path
      let scan_result := buildScanResult env file_path size cksum
      let pre : Trace := [Event.statCall file_path, Event.cksumCall file_path]
      (pre ++ (tryBlock env dataset.path file_path dataset.versionId
                scan_result).1,
       (tryBlock env dataset.path file_path dataset.versionId scan_result).2)

/-- The `for dataset in results:` loop: datasets are processed in order; an
uncaught exception from one iteration aborts the loop (and the remaining
datasets) immediately, as in Python. -/
def processDatasets (env : Env) : List Dataset → Trace × Option PyError
  | [] => ([], none)
  | d :: rest =>
    match (processDataset env d).2 with
    | some e => ((processDataset env d).1, some e)
    | none =>
      ((processDataset env d).1 ++ (processDatasets env rest).1,
       (processDatasets env rest).2)

/-- The warning lines `Crawler.run` emits when `client.search` raises a
`DcException`: the message (when the attribute is present) with type and
cause nested under it, otherwise the raw content. -/
def searchErrorLogs (e : DcErrorInfo) : Trace :=
  match e.message with
  | some m =>
    Event.logWarn "Error occurred:\nMessage: %s" [m] ::
    ((match e.type with
      | some t => [Event.logWarn "Type: %s" [t]]
      | none => []) ++
     (match e.cause with
      | some c => [Event.logWarn "Cause: %s" [c]]
      | none => []))
  | none => [Event.logWarn "%s" [e.content]]

/-- Embedding of `Crawler.run`: one scan cycle.  A single `client.search`
call over `WATCH_FOLDER` with `version="current"`, `site="all"`,
`query = SCAN_QUERY`, `max_num=1000`; on `DcException` the error detail is
logged and the process exits with code 1; otherwise the one returned page is
unpacked and each dataset processed in order. -/
def crawlerRun (env : Env) : Trace × RunOutcome :=
  let searchEv := Event.searchCall WATCH_FOLDER "current" "all" SCAN_QUERY 1000
  match env.searchResult with
  | .error e =>
    (searchEv :: (searchErrorLogs e ++ [Event.exitCall 1]), .exited 1)
  | .ok results =>
    (searchEv :: (processDatasets env results).1,
     match (processDatasets env results).2 with
     | some e => .raised e
     | none => .normal)

/-- Event predicate: is this a `client.search` call? -/
def isSearchEvent : Event → Bool
  | .searchCall _ _ _ _ _ => true
  | _ => false

/-- Event predicate: is this a warn-level log line? -/
def isWarnEvent : Event → Bool
  | .logWarn _ _ => true
  | _ => false

/-- The warn-level log lines of a trace, in order. -/
def warnEvents (tr : Trace) : Trace := tr.filter isWarnEvent

/-! ## Scheduler model

`Crawler.__init__` builds a `sched.scheduler` and immediately calls `_run`;
`_run` calls `run()` and only then calls `sched.enter(RERUN_SECONDS, 1,
self._run, ())`; `Crawler.start` calls `self.sched.run()`, which blocks,
sleeping until each pending event's time and firing it on the calling
thread.  Since the only event ever entered is `_run` and each `_run` enters
exactly one successor, the scheduler state is: the current wall-clock time,
how many `run()` calls have completed, and the absolute time of the single
pending `_run` event (if any).  `run()` is abstracted as a returning action
whose wall-clock duration on the k-th call is `dur k`. -/

/-- Class attribute `Crawler.RERUN_SECONDS = 5`. -/
def RERUN_SECONDS : Nat := 5

/-- Scheduler-level state of the crawler process. -/
structure CrState where
  now : Nat
  runsCompleted : Nat
  nextEvent : Option Nat
  deriving DecidableEq

/-- Embedding of `Crawler._run`, invoked at state `s`: execute `self.run()`
(time advances by its duration), then `self.sched.enter(RERUN_SECONDS, 1,
self._run, ())`, scheduling the next `_run` at the absolute time
finish + RERUN_SECONDS.  The `enter` call happens strictly after `run()` has
returned. -/
def crawlerRunStep (dur : Nat → Nat) (s : CrState) : CrState :=
  let finish := s.now + dur s.runsCompleted
  { now := finish, runsCompleted := s.runsCompleted + 1,
    nextEvent := some (finish + RERUN_SECONDS) }

/-- Embedding of `Crawler.__init__` at wall-clock time `t0`: the constructor
calls `self._run()` directly, so one full cycle runs synchronously inside
the constructor and the next cycle is already scheduled when it returns. -/
def crawlerInit (dur : Nat → Nat) (t0 : Nat) : CrState :=
  crawlerRunStep dur { now := t0, runsCompleted := 0, nextEvent := none }

/-- One step of `sched.run()` inside `Crawler.start`: if an event is
pending, sleep until its time and fire it (calling `_run`); otherwise the
queue is empty and `sched.run` returns. -/
def schedStep (dur : Nat → Nat) (s : CrState) : CrState :=
  match s.nextEvent with
  | none => s
  | some t =>
    crawlerRunStep dur
      { now := max s.now t, runsCompleted := s.runsCompleted,
        nextEvent := none }

/-- Embedding of `Crawler.start` observed after `n` fired events:
`sched.run()` repeatedly fires the pending `_run` event.  It only drives
events already in the queue; it never starts a cycle on its own. -/
def crawlerStart (dur : Nat → Nat) (s : CrState) : Nat → CrState
  | 0 => s
  | n + 1 => crawlerStart dur (schedStep dur s) n

/-- Wall-clock finish time of the k-th `run()` call (0-indexed), as induced
by `crawlerInit`/`crawlerStart`: cycle 0 runs at construction time `t0`;
cycle k+1 starts `RERUN_SECONDS` after cycle k finished. -/
def cycleFinish (dur : Nat → Nat) (t0 : Nat) : Nat → Nat
  | 0 => t0 + dur 0
  | k + 1 => cycleFinish dur t0 k + RERUN_SECONDS + dur (k + 1)

/-- Wall-clock start time of the k-th `run()` call. -/
def cycleStart (dur : Nat → Nat) (t0 : Nat) : Nat → Nat
  | 0 => t0
  | k + 1 => cycleFinish dur t0 k + RERUN_SECONDS

/-! ## Concrete fixtures used by witnesses and counterexamples -/

/-- A `DcException` with a message, as the catalog client raises. -/
def dcBoom : DcErrorInfo :=
  { message := some "HTTP 500", type := some "ServerError",
    cause := some "backend down", content := "HTTP 500" }

/-- A fixed wall-clock instant for the fixtures. -/
def tNow : UTCTime :=
  { year := 2015, month := 6, day := 1, hour := 12, minute := 30, second := 7 }

/-- A dataset with one location at the watch site. -/
def dsOk : Dataset :=
  { path := "/LSST/d1", versionId := 3,
    locations := [{ site := "SLAC", resource := "/data/f1" }] }

/-- Fully healthy environment: stat and checksum succeed, both patches and
the insert succeed. -/
def envOk : Env :=
  { searchResult := .ok [dsOk],
    statSize := fun _ => some 100,
    cksumOutput := fun _ => "2229906935 100 /data/f1",
    cksumExit := fun _ => 0,
    patch1Result := fun _ => .ok (),
    insertFileResult := fun _ => .ok 7,
    patch2Result := fun _ => .ok (),
    now := tNow }

/-! ## Theorems -/

/-- C1: if the phase-1 patch for a dataset raises, `metaDb.insertFile` is
never called for that dataset and the phase-2 patch (the `patch_dataset`
call without a site argument) is never attempted.  The try block aborts at
the first failing statement, so the phase-2 prerequisites never execute. -/
theorem phase1_failure_blocks_insert_and_phase2
    (env : Env) (d : Dataset) (e : PyError)
    (h : env.patch1Result d.path = .error e) :
    (∀ p, Event.insertFileCall p ∉ (processDataset env d).1) ∧
    (∀ p b v, Event.patchCall p b v none ∉ (processDataset env d).1) := by
  unfold processDataset
  cases hfind : d.locations.find? (fun l => l.site == WATCH_SITE) with
  | none => simp
  | some loc =>
    cases hstat : env.statSize loc.resource with
    | none => simp [hstat]
    | some size =>
      simp only [hstat]
      unfold tryBlock
      rw [h]
      cases e with
      | dcErr info => simp [exceptClause]
      | attrErr => simp [exceptClause]
      | osErr p => simp [exceptClause]

/-- Environment in which the phase-1 patch raises a `DcException`. -/
def envPhase1Fail : Env :=
  { envOk with patch1Result := fun _ => .error (.dcErr dcBoom) }

/-- Witness for C1: in `envPhase1Fail` the phase-1 patch for `dsOk` fails,
and no insert and no phase-2 patch occur for it. -/
theorem phase1_failure_blocks_insert_and_phase2_witness :
    envPhase1Fail.patch1Result dsOk.path = .error (.dcErr dcBoom) ∧
    Event.insertFileCall "/data/f1" ∉ (processDataset envPhase1Fail dsOk).1 ∧
    Event.patchCall "/LSST/d1" (.fileIdPatch 7) 3 none ∉
      (processDataset envPhase1Fail dsOk).1 :=
  ⟨rfl,
   (phase1_failure_blocks_insert_and_phase2 envPhase1Fail dsOk _ rfl).1
     "/data/f1",
   (phase1_failure_blocks_insert_and_phase2 envPhase1Fail dsOk _ rfl).2
     "/LSST/d1" (.fileIdPatch 7) 3⟩

/-- A dataset whose locations contain no entry for the watch site. -/
def dsNoSlacB : Dataset :=
  { path := "/LSST/d4", versionId := 4,
    locations := [{ site := "NCSA", resource := "/data/f4" }] }

/-- A healthy dataset that follows `dsNoSlacB` in the same page. -/
def dsAfterB : Dataset :=
  { path := "/LSST/d5", versionId := 5,
    locations := [{ site := "SLAC", resource := "/data/f5" }] }

/-- Environment whose search result pages a no-watch-site dataset before a
healthy one; every external call would succeed. -/
def envPerDatasetErr : Env :=
  { envOk with searchResult := .ok [dsNoSlacB, dsAfterB] }

/-- Counterexample to C2: the missing-watch-site error of the first dataset
is not caught at the per-dataset boundary.  The `AttributeError` from
`check_location.resource` unwinds past the loop (the run outcome is a raised
exception), and the second, healthy dataset of the page is never processed
(not even its `os.stat` happens). -/
theorem per_dataset_error_unwinds_counterexample :
    (crawlerRun envPerDatasetErr).2 = .raised .attrErr ∧
    Event.statCall "/data/f5" ∉ (crawlerRun envPerDatasetErr).1 ∧
    (processDataset envPerDatasetErr dsAfterB).2 = none := by decide

/-- C2 amended: only failures inside the two-phase write-back that are
`DcException`s are caught and logged at the per-dataset boundary.  For a
dataset with a watch-site location and a successful stat, if the phase-1
patch, the insert and the phase-2 patch can only fail with `DcException`s,
the dataset iteration completes without unwinding, and the remaining
datasets of the page are still processed. -/
theorem dc_writeback_errors_caught_at_dataset_boundary
    (env : Env) (d : Dataset) (rest : List Dataset) (loc : Location) (n : Nat)
    (hfind : d.locations.find? (fun l => l.site == WATCH_SITE) = some loc)
    (hstat : env.statSize loc.resource = some n)
    (h1 : ∀ e, env.patch1Result d.path = .error e → ∃ i, e = .dcErr i)
    (h2 : ∀ e, env.insertFileResult loc.resource = .error e → ∃ i, e = .dcErr i)
    (h3 : ∀ e, env.patch2Result d.path = .error e → ∃ i, e = .dcErr i) :
    (processDataset env d).2 = none ∧
    (processDatasets env (d :: rest)).1 =
      (processDataset env d).1 ++ (processDatasets env rest).1 ∧
    (processDatasets env (d :: rest)).2 = (processDatasets env rest).2 := by
  have hnone : (processDataset env d).2 = none := by
    unfold processDataset
    rw [hfind]
    simp only [hstat]
    unfold tryBlock
    cases hp1 : env.patch1Result d.path with
    | error e =>
      obtain ⟨i, rfl⟩ := h1 e hp1
      simp [exceptClause]
    | ok u =>
      cases hins : env.insertFileResult loc.resource with
      | error e =>
        obtain ⟨i, rfl⟩ := h2 e hins
        simp [exceptClause]
      | ok fileId =>
        cases hp2 : env.patch2Result d.path with
        | error e =>
          obtain ⟨i, rfl⟩ := h3 e hp2
          simp [exceptClause]
        | ok v => simp
  have hsplit : processDatasets env (d :: rest) =
      ((processDataset env d).1 ++ (processDatasets env rest).1,
       (processDatasets env rest).2) := by
    rw [processDatasets, hnone]
  exact ⟨hnone, by rw [hsplit], by rw [hsplit]⟩

/-- Witness for the amended C2: with a failing phase-1 patch (a
`DcException`), the iteration for `dsOk` completes without unwinding and
the next dataset of the page is still processed. -/
theorem dc_writeback_errors_caught_witness :
    dsOk.locations.find? (fun l => l.site == WATCH_SITE) =
      some { site := "SLAC", resource := "/data/f1" } ∧
    envPhase1Fail.statSize "/data/f1" = some 100 ∧
    (processDataset envPhase1Fail dsOk).2 = none ∧
    (processDatasets envPhase1Fail [dsOk, dsAfterB]).2 =
      (processDatasets envPhase1Fail [dsAfterB]).2 := by
  have h := dc_writeback_errors_caught_at_dataset_boundary envPhase1Fail dsOk
    [dsAfterB] { site := "SLAC", resource := "/data/f1" } 100 rfl rfl
    (fun e he => ⟨dcBoom, (Except.error.inj he).symm⟩)
    (fun e he => Except.noConfusion he)
    (fun e he => Except.noConfusion he)
  exact ⟨rfl, rfl, h.1, h.2.2⟩

/-- A dataset with no watch-site location, first in its page. -/
def dsNoSlacA : Dataset :=
  { path := "/LSST/d2", versionId := 1,
    locations := [{ site := "IN2P3", resource := "/data/f2" }] }

/-- A healthy dataset following `dsNoSlacA`. -/
def dsAfterA : Dataset :=
  { path := "/LSST/d3", versionId := 2,
    locations := [{ site := "SLAC", resource := "/data/f3" }] }

/-- Environment paging `dsNoSlacA` then `dsAfterA`; all calls succeed. -/
def envMissingLoc : Env :=
  { envOk with searchResult := .ok [dsNoSlacA, dsAfterA] }

/-- C3 (code bug): a dataset with no location at the watch site is not
skipped.  The `for`/`break` scan leaves `check_location = None`, and
`check_location.resource` raises `AttributeError`, which nothing catches:
the whole cycle aborts with only the search call in its trace, so the
subsequent healthy dataset is never processed, even though processing it in
isolation would have succeeded. -/
theorem missing_watch_site_location_raises :
    crawlerRun envMissingLoc =
      ([Event.searchCall WATCH_FOLDER "current" "all" SCAN_QUERY 1000],
       .raised .attrErr) ∧
    (processDataset envMissingLoc dsAfterA).2 = none := by decide

/-- Environment in which only the phase-2 patch raises a `DcException`
(same exception content as `envPhase1Fail`). -/
def envPhase2Fail : Env :=
  { envOk with patch2Result := fun _ => .error (.dcErr dcBoom) }

/-- C4 (code bug): a phase-2 patch failure after a successful phase-1 patch
and insert is caught by the same `except DcException` clause and logged with
exactly the same warning line as a phase-1 failure — the warn-level log
content of the two cycles is identical, so the inconsistent
scanStatus-OK-without-fileId state is not surfaced distinctly. -/
theorem phase2_failure_logged_same_as_phase1 :
    warnEvents (crawlerRun envPhase1Fail).1 =
      [Event.logWarn "Encountered error while updating dataset %s"
        ["/data/f1", "HTTP 500"]] ∧
    warnEvents (crawlerRun envPhase2Fail).1 =
      warnEvents (crawlerRun envPhase1Fail).1 ∧
    Event.insertFileCall "/data/f1" ∈ (crawlerRun envPhase2Fail).1 ∧
    Event.patchCall "/LSST/d1" (.fileIdPatch 7) 3 none ∈
      (crawlerRun envPhase2Fail).1 ∧
    (crawlerRun envPhase2Fail).2 = .normal := by decide

/-- C5: when `client.search` raises a `DcException`, the cycle logs the
structured detail the exception exposes (the message, and — nested under it
— the type and cause when present, or the raw content when there is no
message attribute), processes no dataset (no stat, patch or insert call
appears in the trace), and terminates the process with exit code 1. -/
theorem fatal_query_failure_exits
    (env : Env) (e : DcErrorInfo)
    (h : env.searchResult = .error e) :
    (crawlerRun env).2 = .exited 1 ∧
    Event.exitCall 1 ∈ (crawlerRun env).1 ∧
    (∀ m, e.message = some m →
      Event.logWarn "Error occurred:\nMessage: %s" [m] ∈ (crawlerRun env).1) ∧
    (∀ m t, e.message = some m → e.type = some t →
      Event.logWarn "Type: %s" [t] ∈ (crawlerRun env).1) ∧
    (∀ m c, e.message = some m → e.cause = some c →
      Event.logWarn "Cause: %s" [c] ∈ (crawlerRun env).1) ∧
    (e.message = none → Event.logWarn "%s" [e.content] ∈ (crawlerRun env).1) ∧
    (∀ p, Event.statCall p ∉ (crawlerRun env).1) ∧
    (∀ p b v s, Event.patchCall p b v s ∉ (crawlerRun env).1) ∧
    (∀ p, Event.insertFileCall p ∉ (crawlerRun env).1) := by
  unfold crawlerRun
  rw [h]
  unfold searchErrorLogs
  cases hm : e.message with
  | none => simp [hm]
  | some m =>
    cases ht : e.type with
    | none =>
      cases hc : e.cause with
      | none => simp [hm, ht, hc]
      | some c => simp [hm, ht, hc]
    | some t =>
      cases hc : e.cause with
      | none => simp [hm, ht, hc]
      | some c => simp [hm, ht, hc]

/-- Environment in which the catalog query raises `dcBoom`. -/
def envSearchFail : Env :=
  { envOk with searchResult := .error dcBoom }

/-- Witness for C5: the concrete failing search exits with code 1 and logs
the message, type and cause fields of the exception. -/
theorem fatal_query_failure_exits_witness :
    envSearchFail.searchResult = .error dcBoom ∧
    (crawlerRun envSearchFail).2 = .exited 1 ∧
    Event.logWarn "Error occurred:\nMessage: %s" ["HTTP 500"] ∈
      (crawlerRun envSearchFail).1 ∧
    Event.logWarn "Type: %s" ["ServerError"] ∈ (crawlerRun envSearchFail).1 ∧
    Event.logWarn "Cause: %s" ["backend down"] ∈ (crawlerRun envSearchFail).1 :=
  ⟨rfl,
   (fatal_query_failure_exits envSearchFail dcBoom rfl).1,
   (fatal_query_failure_exits envSearchFail dcBoom rfl).2.2.1 "HTTP 500" rfl,
   (fatal_query_failure_exits envSearchFail dcBoom rfl).2.2.2.1 "HTTP 500"
     "ServerError" rfl rfl,
   (fatal_query_failure_exits envSearchFail dcBoom rfl).2.2.2.2.1 "HTTP 500"
     "backend down" rfl rfl⟩

/-- The try block of the dataset loop never issues a `client.search` call. -/
theorem tryBlock_no_search (env : Env) (dp fp : String) (v : Nat)
    (r : ScanResult) :
    ((tryBlock env dp fp v r).1).filter isSearchEvent = [] := by
  unfold tryBlock
  cases env.patch1Result dp with
  | error e => cases e <;> simp [exceptClause, isSearchEvent]
  | ok u =>
    cases env.insertFileResult fp with
    | error e => cases e <;> simp [exceptClause, isSearchEvent]
    | ok fileId =>
      cases env.patch2Result dp with
      | error e => cases e <;> simp [exceptClause, isSearchEvent]
      | ok w => simp [isSearchEvent]

/-- One dataset iteration never issues a `client.search` call. -/
theorem processDataset_no_search (env : Env) (d : Dataset) :
    ((processDataset env d).1).filter isSearchEvent = [] := by
  unfold processDataset
  cases hfind : d.locations.find? (fun l => l.site == WATCH_SITE) with
  | none => simp
  | some loc =>
    cases hstat : env.statSize loc.resource with
    | none => simp [hstat, isSearchEvent]
    | some n => simp [hstat, isSearchEvent, tryBlock_no_search]

/-- The dataset loop never issues a `client.search` call. -/
theorem processDatasets_no_search (env : Env) (ds : List Dataset) :
    ((processDatasets env ds).1).filter isSearchEvent = [] := by
  induction ds with
  | nil => rfl
  | cons d rest ih =>
    unfold processDatasets
    cases (processDataset env d).2 with
    | some e => simp [processDataset_no_search]
    | none => simp [processDataset_no_search, ih]

/-- C6: every cycle issues exactly one catalog search — over `WATCH_FOLDER`,
with `version="current"`, `site="all"`, the filter
`scanStatus = 'UNSCANNED'` and `max_num=1000` — and fetches only that single
page: the trace of a cycle contains exactly one search event, whatever the
environment returns. -/
theorem single_search_per_cycle (env : Env) :
    ((crawlerRun env).1).filter isSearchEvent =
      [Event.searchCall WATCH_FOLDER "current" "all" SCAN_QUERY 1000] := by
  unfold crawlerRun
  cases env.searchResult with
  | error e =>
    cases hm : e.message with
    | none => simp [searchErrorLogs, isSearchEvent, hm]
    | some m =>
      cases ht : e.type <;> cases hc : e.cause <;>
        simp [searchErrorLogs, isSearchEvent, hm, ht, hc]
  | ok results =>
    simp [isSearchEvent, processDatasets_no_search]

/-- Helper: `digitChar` always yields a decimal digit character. -/
theorem digitChar_isDigit (n : Nat) : (digitChar n).isDigit = true := by
  unfold digitChar
  have h : n % 10 < 10 := Nat.mod_lt _ (by norm_num)
  set k := n % 10 with hk
  interval_cases k <;> decide

/-- Helper: the strftime embedding always produces the
`YYYY-MM-DDTHH:MM:SSZ` shape (on the in-range field values `datetime`
produces, its digits are the zero-padded decimal rendering). -/
theorem formatUtc_timestampShape (t : UTCTime) :
    timestampShape (formatUtc t).data = true := by
  unfold formatUtc pad4 pad2
  simp [timestampShape, digitChar_isDigit]

/-- Helper: the phase-1 patch call, with the scan result as body and scoped
to the watch site, appears in the try block's trace whatever the outcomes of
the three external calls are. -/
theorem tryBlock_contains_phase1_patch (env : Env) (dp fp : String) (v : Nat)
    (r : ScanResult) :
    Event.patchCall dp (.scanResult r) v (some WATCH_SITE) ∈
      (tryBlock env dp fp v r).1 := by
  unfold tryBlock
  cases env.patch1Result dp with
  | error e => simp
  | ok u =>
    cases env.insertFileResult fp with
    | error e => simp
    | ok fileId =>
      cases env.patch2Result dp with
      | error e => simp
      | ok w => simp

/-- C7: for a dataset that reaches the write-back (watch-site location
found, stat succeeded), the phase-1 patch body is exactly the record with
the stat size, the checksum string, `locationScanned` equal to the
formatted current UTC time (which always has the `YYYY-MM-DDTHH:MM:SSZ`
shape with explicit Z suffix), `scanStatus = "OK"`, and no
`versionMetadata` — because `get_metadata` always returns `None`, the
truthiness guard never adds the field. -/
theorem phase1_patch_body_contents
    (env : Env) (d : Dataset) (loc : Location) (n : Nat)
    (hfind : d.locations.find? (fun l => l.site == WATCH_SITE) = some loc)
    (hstat : env.statSize loc.resource = some n) :
    Event.patchCall d.path
      (.scanResult
        { size := n, checksum := get_cksum env loc.resource,
          locationScanned := formatUtc env.now, scanStatus := "OK",
          versionMetadata := none })
      d.versionId (some WATCH_SITE) ∈ (processDataset env d).1 ∧
    buildScanResult env loc.resource n (get_cksum env loc.resource) =
      { size := n, checksum := get_cksum env loc.resource,
        locationScanned := formatUtc env.now, scanStatus := "OK",
        versionMetadata := none } ∧
    get_metadata loc.resource = none ∧
    timestampShape (formatUtc env.now).data = true := by
  have hbuild : buildScanResult env loc.resource n (get_cksum env loc.resource) =
      { size := n, checksum := get_cksum env loc.resource,
        locationScanned := formatUtc env.now, scanStatus := "OK",
        versionMetadata := none } := by
    simp [buildScanResult, get_metadata, pyTruthy]
  refine ⟨?_, hbuild, rfl, formatUtc_timestampShape env.now⟩
  unfold processDataset
  rw [hfind]
  simp only [hstat]
  rw [hbuild] at *
  simp only [List.mem_append]
  right
  rw [← hbuild]
  exact tryBlock_contains_phase1_patch env d.path loc.resource d.versionId _

/-- Witness for C7: in the healthy environment the phase-1 patch body for
`dsOk` carries size 100, the first token of the `cksum` output, the
formatted timestamp `2015-06-01T12:30:07Z`, status OK and no
versionMetadata. -/
theorem phase1_patch_body_contents_witness :
    envOk.statSize "/data/f1" = some 100 ∧
    get_cksum envOk "/data/f1" = "2229906935" ∧
    formatUtc envOk.now = "2015-06-01T12:30:07Z" ∧
    Event.patchCall "/LSST/d1"
      (.scanResult
        { size := 100, checksum := "2229906935",
          locationScanned := "2015-06-01T12:30:07Z", scanStatus := "OK",
          versionMetadata := none })
      3 (some "SLAC") ∈ (processDataset envOk dsOk).1 := by
  have h := phase1_patch_body_contents envOk dsOk
    { site := "SLAC", resource := "/data/f1" } 100 rfl rfl
  refine ⟨rfl, by decide, by decide, ?_⟩
  have hck : get_cksum envOk "/data/f1" = "2229906935" := by decide
  have hts : formatUtc envOk.now = "2015-06-01T12:30:07Z" := by decide
  have h1 := h.1
  rw [hck, hts] at h1
  exact h1

/-- Environment modelling a missing file: `os.stat` would fail, and the
`cksum` child process exits with code 2 and empty stdout. -/
def envMissingFile : Env :=
  { envOk with statSize := fun _ => none,
               cksumOutput := fun _ => "",
               cksumExit := fun _ => 2 }

/-- C8 (code bug): `get_cksum` on a nonexistent path does not fail at all.
The `cksum` child exits non-zero, the `if ec != 0: pass` discards the exit
code, and the first token of the empty stdout — the empty string — is
returned as the checksum.  In the embedding `get_cksum` is a total function
with no error outcome: no `IOError` (nor any exception) is ever raised, and
its result is insensitive to the exit code. -/
theorem cksum_failure_silently_ignored :
    envMissingFile.cksumExit "/no/such/file" ≠ 0 ∧
    get_cksum envMissingFile "/no/such/file" = "" ∧
    get_cksum envMissingFile "/no/such/file" =
      get_cksum { envMissingFile with cksumExit := fun _ => 0 }
        "/no/such/file" := by decide

/-- Helper: one firing of `sched.run` commutes to the back of the event
sequence. -/
theorem crawlerStart_succ (dur : Nat → Nat) (s : CrState) (n : Nat) :
    crawlerStart dur s (n + 1) = schedStep dur (crawlerStart dur s n) := by
  induction n generalizing s with
  | zero => rfl
  | succ n ih => exact ih (schedStep dur s)

/-- Helper: closed form of the crawler's scheduler states — after the
constructor and `n` fired events, `n + 1` cycles have completed, the clock
stands at the last cycle's finish time, and exactly one `_run` event is
pending, `RERUN_SECONDS` after that finish. -/
theorem crawlerStart_invariant (dur : Nat → Nat) (t0 n : Nat) :
    crawlerStart dur (crawlerInit dur t0) n =
      { now := cycleFinish dur t0 n, runsCompleted := n + 1,
        nextEvent := some (cycleFinish dur t0 n + RERUN_SECONDS) } := by
  induction n with
  | zero => rfl
  | succ n ih =>
    rw [crawlerStart_succ, ih]
    simp [schedStep, crawlerRunStep, cycleFinish,
      Nat.max_eq_right (Nat.le_add_right _ _)]

/-- C9: the scheduler runs cycle 0 at construction time `t0`, and each
later cycle starts exactly `RERUN_SECONDS` after the previous cycle's
`run()` returned: the pending event is always armed at finish time plus
`RERUN_SECONDS` (so re-arming happens only after the cycle returns), the
next start is strictly after the previous finish (cycles never overlap),
and there is always a next pending event (the loop is indefinite). -/
theorem scheduler_fixed_delay_no_overlap (dur : Nat → Nat) (t0 n : Nat) :
    cycleStart dur t0 0 = t0 ∧
    (crawlerStart dur (crawlerInit dur t0) n).runsCompleted = n + 1 ∧
    (crawlerStart dur (crawlerInit dur t0) n).now = cycleFinish dur t0 n ∧
    (crawlerStart dur (crawlerInit dur t0) n).nextEvent =
      some (cycleFinish dur t0 n + RERUN_SECONDS) ∧
    cycleStart dur t0 (n + 1) = cycleFinish dur t0 n + RERUN_SECONDS ∧
    cycleFinish dur t0 n < cycleStart dur t0 (n + 1) ∧
    cycleStart dur t0 n ≤ cycleFinish dur t0 n := by
  have h := crawlerStart_invariant dur t0 n
  refine ⟨rfl, by rw [h], by rw [h], by rw [h], rfl, ?_, ?_⟩
  · show cycleFinish dur t0 n < cycleStart dur t0 (n + 1)
    simp [cycleStart, RERUN_SECONDS]
  · cases n with
    | zero => simp [cycleStart, cycleFinish]
    | succ k =>
      show cycleFinish dur t0 k + RERUN_SECONDS ≤ cycleFinish dur t0 (k + 1)
      simp [cycleFinish]

/-- C10: constructing a `Crawler` already executes one full cycle
synchronously (`__init__` calls `_run`, which calls `run()`) and leaves the
next `_run` event scheduled, all before `start()` is invoked; `start()`
(that is, `sched.run()`) only fires events already in the queue — with an
empty queue it does nothing, and each fired event accounts for exactly one
further cycle. -/
theorem constructor_runs_first_cycle (dur : Nat → Nat) (t0 : Nat) :
    crawlerInit dur t0 =
      { now := t0 + dur 0, runsCompleted := 1,
        nextEvent := some (t0 + dur 0 + RERUN_SECONDS) } ∧
    (∀ n, (crawlerStart dur (crawlerInit dur t0) n).runsCompleted = 1 + n) ∧
    (∀ s : CrState, s.nextEvent = none → ∀ n, crawlerStart dur s n = s) := by
  refine ⟨rfl, ?_, ?_⟩
  · intro n
    rw [crawlerStart_invariant]
    simp [Nat.add_comm]
  · intro s hs n
    induction n with
    | zero => rfl
    | succ n ih =>
      rw [crawlerStart_succ, ih, schedStep, hs]

/-- Witness for C10: with a concrete duration function and start time, the
constructor completes one cycle, three fired events make four, and
`sched.run` on an empty queue is the identity. -/
theorem constructor_runs_first_cycle_witness :
    (crawlerInit (fun _ => 2) 100).runsCompleted = 1 ∧
    (crawlerStart (fun _ => 2) (crawlerInit (fun _ => 2) 100) 3).runsCompleted
      = 1 + 3 ∧
    crawlerStart (fun _ => 2)
      { now := 0, runsCompleted := 0, nextEvent := none } 5 =
      { now := 0, runsCompleted := 0, nextEvent := none } :=
  ⟨by rw [(constructor_runs_first_cycle (fun _ => 2) 100).1],
   (constructor_runs_first_cycle (fun _ => 2) 100).2.1 3,
   (constructor_runs_first_cycle (fun _ => 2) 100).2.2 _ rfl 5⟩
